import Mathlib

/-!
Verification of the SKÜL mini-app core against its specification.

Shallow embedding of:
- the rubric scoring engine (`src/utils/validation.ts`): `validateAnswer`,
  `validatePresentation`, `validateNegotiation`;
- the network reconciler and error classifier of the minting pipeline
  (`src/utils/badge.ts`): `ensureSoneiumNetwork`, the catch-block classifier
  of `mintBadge`, and the receipt-wait call site;
- the credential ledger (`contracts/SkulRegistry.sol`): `issueCredential`,
  `getCredentialCount`, `getCredential`.

Modelling conventions: JavaScript strings are modelled as Lean `String`,
`String.prototype.length` as the number of characters (identical for the
ASCII/BMP texts at issue), and JS string primitives (`trim`, `toLowerCase`,
`includes`, `split`) are re-implemented over `List Char` to mirror the JS
semantics directly.  JS numbers are modelled as `Int`; the expression
`Math.floor((len / ideal) * w)` (binary floating point) is modelled as the
exact rational floor `len * w / ideal`, which agrees with the float value up
to the float rounding of the intermediate quotient — both always lie in
`[0, w]`, which is all the range claims use.  ASCII apostrophes inside JS
string literals are transcribed as U+2019.
-/

/-! ## JavaScript string primitives -/

/-- JS `String.prototype.startsWith` on character lists: the first list is a
prefix of the second. -/
def leadMatch : List Char → List Char → Bool
  | [], _ => true
  | _ :: _, [] => false
  | a :: as, b :: bs => a == b && leadMatch as bs

/-- Whether `needle` occurs as a contiguous run inside the second list, as JS
`String.prototype.includes` checks (a match may start at any position; the
empty needle always matches). -/
def subMatch (needle : List Char) : List Char → Bool
  | [] => leadMatch needle []
  | b :: bs => leadMatch needle (b :: bs) || subMatch needle bs

/-- JS `s.includes(pat)`. -/
def jsIncludes (s pat : String) : Bool :=
  subMatch pat.toList s.toList

/-- JS `s.trim()`: strip whitespace from both ends. -/
def jsTrim (s : String) : String :=
  String.mk (((s.toList.dropWhile Char.isWhitespace).reverse.dropWhile
    Char.isWhitespace).reverse)

/-- JS `s.toLowerCase()` (ASCII letters, as the keyword lists require). -/
def jsToLower (s : String) : String :=
  String.mk (s.toList.map Char.toLower)

/-- JS `s.length`, modelled as the number of characters. -/
def jsLength (s : String) : Nat :=
  s.toList.length

/-- Character-list splitter underlying JS `s.split(sep)` for a one-character
separator: the number of produced segments is one more than the number of
separator occurrences. -/
def splitOnDotAux : List Char → List (List Char)
  | [] => [[]]
  | c :: cs =>
    let r := splitOnDotAux cs
    if c = '.' then [] :: r
    else
      match r with
      | [] => [[c]]
      | h :: t => (c :: h) :: t

/-- JS `s.split('.')`. -/
def jsSplitDot (s : String) : List String :=
  (splitOnDotAux s.toList).map String.mk

/-! ## Rubric scoring engine (`src/utils/validation.ts`) -/

/-- The `details` record of `ValidationResult` (component scores). -/
structure ValidationDetails where
  lengthScore : Int
  professionalismScore : Int
  grammarScore : Int
deriving DecidableEq, Repr

/-- The `ValidationResult` interface: `details` is optional (`none` for the
presentation and negotiation validators). -/
structure ValidationResult where
  score : Int
  passed : Bool
  feedback : String
  details : Option ValidationDetails
deriving DecidableEq, Repr

/-- `professionalIndicators` keyword list of `validateAnswer`. -/
def professionalIndicators : List String :=
  ["dear", "regards", "sincerely", "thank you", "please", "appreciate",
   "would", "could", "apologize", "apology", "regarding", "concerning",
   "respectfully", "best", "kind regards", "yours truly"]

/-- `casualWords` keyword list of `validateAnswer` (note the trailing spaces
in the source literals `'u '` and `'ur '`). -/
def casualWords : List String :=
  ["hey", "hi", "thx", "u ", "ur ", "asap", "maybe", "sorry",
   "yo", "waste", "cancel", "just", "gonna", "wanna"]

/-- `professionalIndicators.some(i => lowerAnswer.includes(i))`. -/
def hasProfessionalIndicators (lowerAnswer : String) : Bool :=
  professionalIndicators.any (fun ind => jsIncludes lowerAnswer ind)

/-- `casualWords.some(w => lowerAnswer.includes(w))`. -/
def hasCasualWords (lowerAnswer : String) : Bool :=
  casualWords.any (fun w => jsIncludes lowerAnswer w)

/-- `casualWords.filter(w => lowerAnswer.includes(w)).length`. -/
def casualWordCount (lowerAnswer : String) : Nat :=
  (casualWords.filter (fun w => jsIncludes lowerAnswer w)).length

/-- `hasGreeting` of `validateAnswer`. -/
def hasGreeting (lowerAnswer : String) : Bool :=
  jsIncludes lowerAnswer "dear" || jsIncludes lowerAnswer "hello" ||
    jsIncludes lowerAnswer "good"

/-- `hasClosing` of `validateAnswer`. -/
def hasClosing (lowerAnswer : String) : Bool :=
  jsIncludes lowerAnswer "regards" || jsIncludes lowerAnswer "sincerely" ||
    jsIncludes lowerAnswer "best"

/-- Length component of `validateAnswer` (20% of score): 20 points at the
ideal length 50, scaled by `Math.floor((n / 50) * 20)` below it. -/
def answerLengthScore (n : Nat) : Int :=
  if 50 ≤ n then 20 else ((n * 20 / 50 : Nat) : Int)

/-- Professional-indicator component of `validateAnswer` (40% of score):
categorical 40 when any indicator occurs, else 20. -/
def answerProfessionalismScore (lowerAnswer : String) : Int :=
  if hasProfessionalIndicators lowerAnswer then 40 else 20

/-- Casual-language component of `validateAnswer` (30% of score):
30 when no casual word occurs, else `Math.max(0, 30 - count * 10)`. -/
def answerGrammarScore (lowerAnswer : String) : Int :=
  if !hasCasualWords lowerAnswer then 30
  else max 0 (30 - 10 * ((casualWordCount lowerAnswer : Nat) : Int))

/-- Structure bonus of `validateAnswer` (10 points when both a greeting and
a closing convention occur). -/
def answerStructureBonus (lowerAnswer : String) : Int :=
  if hasGreeting lowerAnswer && hasClosing lowerAnswer then 10 else 0

/-- Total of `validateAnswer`: sum of the components, capped at 100
(`score = Math.min(100, score)`). -/
def answerTotal (answer : String) : Int :=
  min 100 (answerLengthScore (jsLength (jsTrim answer))
    + answerProfessionalismScore (jsToLower (jsTrim answer))
    + answerGrammarScore (jsToLower (jsTrim answer))
    + answerStructureBonus (jsToLower (jsTrim answer)))

/-- Feedback tiers of `validateAnswer` (fail / excellent / pass). -/
def answerFeedbackFor (total : Int) : String :=
  if ¬ (60 ≤ total) then
    "Try using more formal language, proper greetings, complete sentences, and professional closings."
  else if 80 ≤ total then
    "Excellent! Your email demonstrates strong professional communication skills."
  else
    "Good job! Your email is professional, though there’s room for improvement in formality and structure."

/-- `validateAnswer(answer, _prompt, _challengeType)` — the correspondence
rubric scorer.  The `_prompt` and `_challengeType` parameters are unused in
the source and likewise ignored here.  Below minimum length 20 it returns
immediately with score 0 and the zeroed details record. -/
def validateAnswer (answer _prompt _challengeType : String) : ValidationResult :=
  if jsLength (jsTrim answer) < 20 then
    { score := 0, passed := false
      feedback := "Your response is too short. Professional communications should be more detailed."
      details := some ⟨0, 0, 0⟩ }
  else
    { score := answerTotal answer
      passed := decide (60 ≤ answerTotal answer)
      feedback := answerFeedbackFor (answerTotal answer)
      details := some ⟨answerLengthScore (jsLength (jsTrim answer)),
                       answerProfessionalismScore (jsToLower (jsTrim answer)),
                       answerGrammarScore (jsToLower (jsTrim answer))⟩ }

/-- `engagingWords` keyword list of `validatePresentation`. -/
def engagingWords : List String :=
  ["excited", "proud", "innovative", "transform", "revolutionary", "breakthrough"]

/-- Length component of `validatePresentation` (30%). -/
def presentationLengthScore (n : Nat) : Int :=
  if 50 ≤ n then 30 else ((n * 30 / 50 : Nat) : Int)

/-- Engagement component of `validatePresentation` (40%): categorical 40 when
any engaging word occurs in the lower-cased text, else 20. -/
def presentationEngagementScore (trimmed : String) : Int :=
  if engagingWords.any (fun w => jsIncludes (jsToLower trimmed) w) then 40 else 20

/-- Clarity component of `validatePresentation` (30%): 30 when
`trimmed.split('.').length >= 2`, else 15. -/
def presentationClarityScore (trimmed : String) : Int :=
  if 2 ≤ (jsSplitDot trimmed).length then 30 else 15

/-- Total of `validatePresentation` (the source applies no cap here). -/
def presentationTotal (trimmed : String) : Int :=
  presentationLengthScore (jsLength trimmed) + presentationEngagementScore trimmed
    + presentationClarityScore trimmed

/-- `validatePresentation(answer)` — the presentation rubric scorer, minimum
length 30, no `details` record. -/
def validatePresentation (answer : String) : ValidationResult :=
  if jsLength (jsTrim answer) < 30 then
    { score := 0, passed := false
      feedback := "Your introduction is too short. Aim for 2-3 engaging sentences."
      details := none }
  else
    { score := presentationTotal (jsTrim answer)
      passed := decide (60 ≤ presentationTotal (jsTrim answer))
      feedback :=
        if 60 ≤ presentationTotal (jsTrim answer) then
          "Great introduction! It’s engaging and well-structured."
        else
          "Try to make your introduction more engaging and clear. Use action words and structure it well."
      details := none }

/-- `diplomaticWords` keyword list of `validateNegotiation`. -/
def diplomaticWords : List String :=
  ["understand", "appreciate", "value", "consider", "explore", "alternative", "flexible"]

/-- Length component of `validateNegotiation` (25%), ideal length 80. -/
def negotiationLengthScore (n : Nat) : Int :=
  if 80 ≤ n then 25 else ((n * 25 / 80 : Nat) : Int)

/-- Diplomacy component of `validateNegotiation` (40%):
`Math.min(40, diplomaticCount * 10)`. -/
def negotiationDiplomacyScore (trimmed : String) : Int :=
  min 40 (10 *
    (((diplomaticWords.filter (fun w => jsIncludes (jsToLower trimmed) w)).length : Nat) : Int))

/-- `maintainsPosition` of `validateNegotiation`. -/
def maintainsPosition (trimmed : String) : Bool :=
  !(jsIncludes (jsToLower trimmed) "discount") ||
    jsIncludes (jsToLower trimmed) "cannot" ||
    jsIncludes (jsToLower trimmed) "unable" ||
    jsIncludes (jsToLower trimmed) "alternative"

/-- Position component of `validateNegotiation` (35%): 35 when the text
maintains its pricing position, else 15. -/
def negotiationPositionScore (trimmed : String) : Int :=
  if maintainsPosition trimmed then 35 else 15

/-- Total of `validateNegotiation` (the source applies no cap here). -/
def negotiationTotal (trimmed : String) : Int :=
  negotiationLengthScore (jsLength trimmed) + negotiationDiplomacyScore trimmed
    + negotiationPositionScore trimmed

/-- `validateNegotiation(answer)` — the negotiation rubric scorer, minimum
length 40, no `details` record. -/
def validateNegotiation (answer : String) : ValidationResult :=
  if jsLength (jsTrim answer) < 40 then
    { score := 0, passed := false
      feedback := "Your response is too short. Negotiation requires detailed, diplomatic communication."
      details := none }
  else
    { score := negotiationTotal (jsTrim answer)
      passed := decide (60 ≤ negotiationTotal (jsTrim answer))
      feedback :=
        if 60 ≤ negotiationTotal (jsTrim answer) then
          "Excellent negotiation response! You maintained your position while being diplomatic."
        else
          "Try to be more diplomatic while clearly maintaining your pricing position. Offer alternatives when possible."
      details := none }

/-! ## Network reconciler and minting pipeline (`src/utils/badge.ts`) -/

/-- `nativeCurrency` entry of the chain descriptor. -/
structure NativeCurrency where
  name : String
  symbol : String
  decimals : Nat
deriving DecidableEq, Repr

/-- The `SONEIUM_MINATO` chain configuration, restricted to the fields the
reconciler reads (`rpcUrls` is `rpcUrls.default.http`, `blockExplorerUrl` is
`blockExplorers.default.url`). -/
structure ChainConfig where
  id : Nat
  name : String
  network : String
  nativeCurrency : NativeCurrency
  rpcUrls : List String
  blockExplorerUrl : String
deriving DecidableEq, Repr

/-- `SONEIUM_MINATO` — the Soneium Minato Testnet target descriptor. -/
def SONEIUM_MINATO : ChainConfig :=
  { id := 1946
    name := "Soneium Minato Testnet"
    network := "soneium-minato"
    nativeCurrency := { name := "Ether", symbol := "ETH", decimals := 18 }
    rpcUrls := ["https://rpc.minato.soneium.org"]
    blockExplorerUrl := "https://soneium-minato.blockscout.com" }

/-- Parameter object of a `wallet_addEthereumChain` request. -/
structure AddChainParams where
  chainId : String
  chainName : String
  nativeCurrency : NativeCurrency
  rpcUrls : List String
  blockExplorerUrls : List String
deriving DecidableEq, Repr

/-- The EIP-1193 requests the reconciler can issue. -/
inductive Req where
  | ethChainId
  | switchChain (chainId : String)
  | addChain (params : AddChainParams)
deriving DecidableEq, Repr

/-- A provider error object; `code` is the provider-specific numeric code the
reconciler inspects (`switchError.code === 4902`). -/
structure ProviderErr where
  code : Option Int
  message : String
deriving DecidableEq, Repr

/-- A deterministic EIP-1193 provider: given the history of requests issued
so far and the next request, it either throws an error object or returns a
result string (only `eth_chainId` results are ever read). -/
abbrev Provider := List Req → Req → Except ProviderErr String

/-- JS `n.toString(16)` for a natural number (lower-case hex digits). -/
def natToHex (n : Nat) : String :=
  String.mk (Nat.toDigits 16 n)

/-- Hexadecimal digit value accepted by `parseInt(_, 16)`. -/
def hexVal (c : Char) : Option Nat :=
  if '0' ≤ c ∧ c ≤ '9' then some (c.toNat - '0'.toNat)
  else if 'a' ≤ c ∧ c ≤ 'f' then some (c.toNat - 'a'.toNat + 10)
  else if 'A' ≤ c ∧ c ≤ 'F' then some (c.toNat - 'A'.toNat + 10)
  else none

/-- Accumulate the longest leading run of hex digits. -/
def parseHexAux : List Char → Nat → Nat
  | [], acc => acc
  | c :: cs, acc =>
    match hexVal c with
    | some d => parseHexAux cs (acc * 16 + d)
    | none => acc

/-- JS `parseInt(s, 16)`: skip leading whitespace, an optional sign, an
optional `0x`/`0X` prefix, then parse the longest leading run of hex digits;
`none` models `NaN` (no digit found). -/
def parseIntHex (s : String) : Option Int :=
  let cs0 := s.toList.dropWhile Char.isWhitespace
  let sign : Int :=
    match cs0 with
    | '-' :: _ => -1
    | _ => 1
  let cs1 :=
    match cs0 with
    | '-' :: rest => rest
    | '+' :: rest => rest
    | _ => cs0
  let cs2 :=
    match cs1 with
    | '0' :: 'x' :: rest => rest
    | '0' :: 'X' :: rest => rest
    | _ => cs1
  match cs2 with
  | [] => none
  | c :: _ =>
    match hexVal c with
    | some _ => some (sign * Int.ofNat (parseHexAux cs2 0))
    | none => none

/-- The hex chain id string the reconciler sends:
`` `0x${SONEIUM_MINATO.id.toString(16)}` ``. -/
def targetChainIdHex : String :=
  "0x" ++ natToHex SONEIUM_MINATO.id

/-- The full `wallet_addEthereumChain` parameter object built from
`SONEIUM_MINATO` in `ensureSoneiumNetwork`. -/
def addChainParams : AddChainParams :=
  { chainId := targetChainIdHex
    chainName := SONEIUM_MINATO.name
    nativeCurrency := SONEIUM_MINATO.nativeCurrency
    rpcUrls := SONEIUM_MINATO.rpcUrls
    blockExplorerUrls := [SONEIUM_MINATO.blockExplorerUrl] }

/-- The `catch (switchError)` block of `ensureSoneiumNetwork`: on error code
4902 it issues one `wallet_addEthereumChain` with the full descriptor, then
retries `wallet_switchEthereumChain` once and returns `true` on success; any
failure inside that inner `try`, or a non-4902 code, returns `false`.  The
second component of the result is the full request log (the `log` argument
extended by the requests this block issues). -/
def switchCatch (p : Provider) (log : List Req) (e : ProviderErr) : Bool × List Req :=
  if e.code = some 4902 then
    match p log (Req.addChain addChainParams) with
    | .error _ => (false, log ++ [Req.addChain addChainParams])
    | .ok _ =>
      match p (log ++ [Req.addChain addChainParams]) (Req.switchChain targetChainIdHex) with
      | .error _ => (false, log ++ [Req.addChain addChainParams, Req.switchChain targetChainIdHex])
      | .ok _ => (true, log ++ [Req.addChain addChainParams, Req.switchChain targetChainIdHex])
  else (false, log)

/-- `ensureSoneiumNetwork(provider)`: query `eth_chainId`; if it parses to the
target id, return `true` with no further requests.  Otherwise request a chain
switch inside a `try` whose body, on success, re-queries `eth_chainId` and
returns whether it now matches; any error thrown in that body goes to
`switchCatch`.  An error from the first `eth_chainId` hits the outer `catch`
and yields `false`.  Returns the outcome together with the ordered log of all
provider requests issued. -/
def ensureSoneiumNetwork (p : Provider) : Bool × List Req :=
  match p [] Req.ethChainId with
  | .error _ => (false, [Req.ethChainId])
  | .ok chainId =>
    if parseIntHex chainId = some (Int.ofNat SONEIUM_MINATO.id) then
      (true, [Req.ethChainId])
    else
      match p [Req.ethChainId] (Req.switchChain targetChainIdHex) with
      | .ok _ =>
        match p [Req.ethChainId, Req.switchChain targetChainIdHex] Req.ethChainId with
        | .ok newChainId =>
          (decide (parseIntHex newChainId = some (Int.ofNat SONEIUM_MINATO.id)),
           [Req.ethChainId, Req.switchChain targetChainIdHex, Req.ethChainId])
        | .error e =>
          switchCatch p [Req.ethChainId, Req.switchChain targetChainIdHex, Req.ethChainId] e
      | .error e =>
        switchCatch p [Req.ethChainId, Req.switchChain targetChainIdHex] e

/-- The closed error taxonomy realised by the `catch` block of `mintBadge`:
each constructor corresponds to one branch of its message classifier. -/
inductive MintErrClass where
  | userRejected
  | insufficientFunds
  | network
  | unknown
deriving DecidableEq, Repr

/-- The message classifier in the `catch` block of `mintBadge`, branch for
branch: `error.message.includes('User rejected') || includes('user rejected')`
→ user rejected; `includes('insufficient funds')` → insufficient funds;
`includes('network') || includes('Network')` → network; otherwise the raw
message is kept verbatim (the catch-all). -/
def classifyMintError (msg : String) : MintErrClass :=
  if jsIncludes msg "User rejected" || jsIncludes msg "user rejected" then
    .userRejected
  else if jsIncludes msg "insufficient funds" then .insufficientFunds
  else if jsIncludes msg "network" || jsIncludes msg "Network" then .network
  else .unknown

/-- The user-facing message each classifier branch of `mintBadge` produces
(the catch-all returns the raw message verbatim). -/
def mintErrorMessage (msg : String) : String :=
  match classifyMintError msg with
  | .userRejected => "Transaction was cancelled"
  | .insufficientFunds => "Insufficient funds for transaction"
  | .network => "Network error. Please check your connection and ensure you are on Soneium Minato Testnet."
  | .unknown => msg

/-- Parameter object of viem's `waitForTransactionReceipt`; `timeout` is the
optional upper bound on the wait (in milliseconds). -/
structure WaitForReceiptParams where
  hash : String
  timeout : Option Nat
deriving DecidableEq, Repr

/-- The argument `mintBadge` passes to
`publicClient.waitForTransactionReceipt`: only `{ hash: txHash }` — no
`timeout` field is supplied. -/
def mintBadgeReceiptWait (txHash : String) : WaitForReceiptParams :=
  { hash := txHash, timeout := none }

/-! ## Credential ledger (`contracts/SkulRegistry.sol`) -/

/-- Wallet addresses, abstracted to an infinite identifier space. -/
abbrev Addr := Nat

/-- The `Credential` struct: `{fid, skillName, completedAt}`. -/
structure Credential where
  fid : Nat
  skillName : String
  completedAt : Nat
deriving DecidableEq, Repr

/-- The contract storage: `mapping(address => Credential[]) userCredentials`
(a fresh mapping entry is the empty array). -/
def RegistryState := Addr → List Credential

/-- The registry as deployed: every owner sequence empty. -/
def emptyRegistry : RegistryState := fun _ => []

/-- `issueCredential(_fid, _skillName)` executed with `msg.sender = sender`
at `block.timestamp = ts`: pushes a new `Credential` onto the caller's own
array (ownership is bound to the signer; no owner parameter exists). -/
def issueCredential (sender : Addr) (fid : Nat) (skillName : String) (ts : Nat)
    (s : RegistryState) : RegistryState :=
  fun a => if a = sender then s a ++ [⟨fid, skillName, ts⟩] else s a

/-- `getCredentialCount(_user)`: length of the user's credential array. -/
def getCredentialCount (s : RegistryState) (user : Addr) : Nat :=
  (s user).length

/-- `getCredential(_user, _index)`: the credential at the index; Solidity
0.8 bounds checking reverts out of range, modelled by `Option`. -/
def getCredential (s : RegistryState) (user : Addr) (i : Nat) : Option Credential :=
  (s user).get? i

/-- One `issueCredential` call description: `(fid, skillName, timestamp)`. -/
abbrev IssueCall := Nat × String × Nat

/-- The credential an `issueCredential` call appends. -/
def toCred (c : IssueCall) : Credential :=
  ⟨c.1, c.2.1, c.2.2⟩

/-- A sequence of `issueCredential` transactions, all signed by `sender`,
applied in order. -/
def issueMany (sender : Addr) (calls : List IssueCall) (s : RegistryState) :
    RegistryState :=
  calls.foldl (fun st c => issueCredential sender c.1 c.2.1 c.2.2 st) s

/-- A provider already on the target chain: answers every request with the
target chain id (used to witness the already-correct reconciliation run). -/
def correctProvider : Provider := fun _ _ => Except.ok "0x79a"

/-- A provider on a foreign chain that rejects every switch request with the
chain-unrecognized code 4902 while accepting add-chain requests (used to
witness the add-then-retry reconciliation run). -/
def stubbornProvider : Provider := fun _ r =>
  match r with
  | Req.switchChain _ => Except.error { code := some 4902, message := "Unrecognized chain ID" }
  | _ => Except.ok "0x1"

/-! ## Characterisation lemmas for the scorers -/

/-- The score of `validateAnswer` is 0 below the minimum length and the
capped component total otherwise. -/
theorem validateAnswer_score (t p c : String) :
    (validateAnswer t p c).score =
      if jsLength (jsTrim t) < 20 then 0 else answerTotal t := by
  unfold validateAnswer; split <;> rfl

/-- The verdict of `validateAnswer` is false below the minimum length and the
60-threshold test otherwise. -/
theorem validateAnswer_passed (t p c : String) :
    (validateAnswer t p c).passed =
      if jsLength (jsTrim t) < 20 then false else decide (60 ≤ answerTotal t) := by
  unfold validateAnswer; split <;> rfl

/-- The score of `validatePresentation`, by branch. -/
theorem validatePresentation_score (t : String) :
    (validatePresentation t).score =
      if jsLength (jsTrim t) < 30 then 0 else presentationTotal (jsTrim t) := by
  unfold validatePresentation; split <;> rfl

/-- The verdict of `validatePresentation`, by branch. -/
theorem validatePresentation_passed (t : String) :
    (validatePresentation t).passed =
      if jsLength (jsTrim t) < 30 then false
      else decide (60 ≤ presentationTotal (jsTrim t)) := by
  unfold validatePresentation; split <;> rfl

/-- The score of `validateNegotiation`, by branch. -/
theorem validateNegotiation_score (t : String) :
    (validateNegotiation t).score =
      if jsLength (jsTrim t) < 40 then 0 else negotiationTotal (jsTrim t) := by
  unfold validateNegotiation; split <;> rfl

/-- The verdict of `validateNegotiation`, by branch. -/
theorem validateNegotiation_passed (t : String) :
    (validateNegotiation t).passed =
      if jsLength (jsTrim t) < 40 then false
      else decide (60 ≤ negotiationTotal (jsTrim t)) := by
  unfold validateNegotiation; split <;> rfl

/-- The length component of `validateAnswer` lies in `[0, 20]`. -/
theorem answerLengthScore_bounds (n : Nat) :
    0 ≤ answerLengthScore n ∧ answerLengthScore n ≤ 20 := by
  unfold answerLengthScore; split <;> omega

/-- The professionalism component of `validateAnswer` lies in `[20, 40]`:
20 points even when no indicator occurs. -/
theorem answerProfessionalismScore_bounds (s : String) :
    20 ≤ answerProfessionalismScore s ∧ answerProfessionalismScore s ≤ 40 := by
  unfold answerProfessionalismScore; split <;> omega

/-- The casual-language component of `validateAnswer` lies in `[0, 30]`
(the source clamps the penalty at 0). -/
theorem answerGrammarScore_bounds (s : String) :
    0 ≤ answerGrammarScore s ∧ answerGrammarScore s ≤ 30 := by
  unfold answerGrammarScore
  split
  · omega
  · rw [max_def]; split <;> omega

/-- The structure bonus of `validateAnswer` lies in `[0, 10]`. -/
theorem answerStructureBonus_bounds (s : String) :
    0 ≤ answerStructureBonus s ∧ answerStructureBonus s ≤ 10 := by
  unfold answerStructureBonus; split <;> omega

/-- The capped total of `validateAnswer` lies in `[0, 100]`. -/
theorem answerTotal_bounds (t : String) :
    0 ≤ answerTotal t ∧ answerTotal t ≤ 100 := by
  unfold answerTotal
  have h1 := answerLengthScore_bounds (jsLength (jsTrim t))
  have h2 := answerProfessionalismScore_bounds (jsToLower (jsTrim t))
  have h3 := answerGrammarScore_bounds (jsToLower (jsTrim t))
  have h4 := answerStructureBonus_bounds (jsToLower (jsTrim t))
  rw [min_def]; split <;> omega

/-- The length component of `validatePresentation` lies in `[0, 30]`. -/
theorem presentationLengthScore_bounds (n : Nat) :
    0 ≤ presentationLengthScore n ∧ presentationLengthScore n ≤ 30 := by
  unfold presentationLengthScore; split <;> omega

/-- The engagement component of `validatePresentation` lies in `[20, 40]`. -/
theorem presentationEngagementScore_bounds (s : String) :
    20 ≤ presentationEngagementScore s ∧ presentationEngagementScore s ≤ 40 := by
  unfold presentationEngagementScore; split <;> omega

/-- The clarity component of `validatePresentation` lies in `[15, 30]`. -/
theorem presentationClarityScore_bounds (s : String) :
    15 ≤ presentationClarityScore s ∧ presentationClarityScore s ≤ 30 := by
  unfold presentationClarityScore; split <;> omega

/-- The (uncapped) total of `validatePresentation` lies in `[0, 100]`: the
component maxima sum to exactly 100, so no cap is needed. -/
theorem presentationTotal_bounds (t : String) :
    0 ≤ presentationTotal t ∧ presentationTotal t ≤ 100 := by
  unfold presentationTotal
  have h1 := presentationLengthScore_bounds (jsLength t)
  have h2 := presentationEngagementScore_bounds t
  have h3 := presentationClarityScore_bounds t
  omega

/-- The length component of `validateNegotiation` lies in `[0, 25]`. -/
theorem negotiationLengthScore_bounds (n : Nat) :
    0 ≤ negotiationLengthScore n ∧ negotiationLengthScore n ≤ 25 := by
  unfold negotiationLengthScore; split <;> omega

/-- The diplomacy component of `validateNegotiation` lies in `[0, 40]`. -/
theorem negotiationDiplomacyScore_bounds (s : String) :
    0 ≤ negotiationDiplomacyScore s ∧ negotiationDiplomacyScore s ≤ 40 := by
  unfold negotiationDiplomacyScore
  rw [min_def]; split <;> omega

/-- The position component of `validateNegotiation` lies in `[15, 35]`. -/
theorem negotiationPositionScore_bounds (s : String) :
    15 ≤ negotiationPositionScore s ∧ negotiationPositionScore s ≤ 35 := by
  unfold negotiationPositionScore; split <;> omega

/-- The (uncapped) total of `validateNegotiation` lies in `[0, 100]`: the
component maxima sum to exactly 100, so no cap is needed. -/
theorem negotiationTotal_bounds (t : String) :
    0 ≤ negotiationTotal t ∧ negotiationTotal t ≤ 100 := by
  unfold negotiationTotal
  have h1 := negotiationLengthScore_bounds (jsLength t)
  have h2 := negotiationDiplomacyScore_bounds t
  have h3 := negotiationPositionScore_bounds t
  omega

/-! ## The claims -/

/-- Claim C1: for every input text (and any prompt/challenge-type arguments),
each of the three scoring functions — `validateAnswer`, `validatePresentation`
and `validateNegotiation` — returns a score in the range `[0, 100]`. -/
theorem claim_C1_score_range (t p c : String) :
    (0 ≤ (validateAnswer t p c).score ∧ (validateAnswer t p c).score ≤ 100) ∧
    (0 ≤ (validatePresentation t).score ∧ (validatePresentation t).score ≤ 100) ∧
    (0 ≤ (validateNegotiation t).score ∧ (validateNegotiation t).score ≤ 100) := by
  rw [validateAnswer_score, validatePresentation_score, validateNegotiation_score]
  refine ⟨?_, ?_, ?_⟩
  · split
    · omega
    · exact answerTotal_bounds t
  · split
    · omega
    · exact presentationTotal_bounds (jsTrim t)
  · split
    · omega
    · exact negotiationTotal_bounds (jsTrim t)

/-- Claim C2: every input whose trimmed length is below the rubric's minimum
(20 for `validateAnswer`, 30 for `validatePresentation`, 40 for
`validateNegotiation`) is returned immediately with score 0 and a failing
verdict, with no components scored. -/
theorem claim_C2_short_input (t p c : String) :
    (jsLength (jsTrim t) < 20 →
      (validateAnswer t p c).score = 0 ∧ (validateAnswer t p c).passed = false) ∧
    (jsLength (jsTrim t) < 30 →
      (validatePresentation t).score = 0 ∧ (validatePresentation t).passed = false) ∧
    (jsLength (jsTrim t) < 40 →
      (validateNegotiation t).score = 0 ∧ (validateNegotiation t).passed = false) := by
  rw [validateAnswer_score, validateAnswer_passed, validatePresentation_score,
    validatePresentation_passed, validateNegotiation_score, validateNegotiation_passed]
  refine ⟨fun h => ?_, fun h => ?_, fun h => ?_⟩ <;>
    rw [if_pos h, if_pos h] <;> exact ⟨rfl, rfl⟩

/-- Witness for claim C2 at the spec's own short example `"hey thx asap"`
(trimmed length 12, below all three minima). -/
theorem claim_C2_short_input_witness :
    ((validateAnswer "hey thx asap" "" "").score = 0 ∧
      (validateAnswer "hey thx asap" "" "").passed = false) ∧
    ((validatePresentation "hey thx asap").score = 0 ∧
      (validatePresentation "hey thx asap").passed = false) ∧
    ((validateNegotiation "hey thx asap").score = 0 ∧
      (validateNegotiation "hey thx asap").passed = false) := by
  obtain ⟨h1, h2, h3⟩ := claim_C2_short_input "hey thx asap" "" ""
  exact ⟨h1 (by decide), h2 (by decide), h3 (by decide)⟩

/-- Claim C4: scoring is deterministic and depends only on the submitted
text — the `prompt` and `challengeType` arguments of `validateAnswer` are
ignored, so calls with identical text return identical full results (score,
verdict, feedback and details).  The embedding is a pure function of its
arguments, matching the source, which reads no external state. -/
theorem claim_C4_determinism (a p q c d : String) :
    validateAnswer a p c = validateAnswer a q d := rfl

/-- Claim C5: the spec's example correspondence answer passes `validateAnswer`
with a score of at least 80 (it in fact scores 100), for any prompt and
challenge-type arguments. -/
theorem claim_C5_example_email (p c : String) :
    (validateAnswer
        "Dear team, I apologize for the delay; I will send the report by Friday. Best regards"
        p c).passed = true ∧
    80 ≤ (validateAnswer
        "Dear team, I apologize for the delay; I will send the report by Friday. Best regards"
        p c).score := by
  show (validateAnswer
      "Dear team, I apologize for the delay; I will send the report by Friday. Best regards"
      "" "").passed = true ∧
    80 ≤ (validateAnswer
      "Dear team, I apologize for the delay; I will send the report by Friday. Best regards"
      "" "").score
  decide

/-- Claim C10: every input whose trimmed length is at least 50 and whose
lower-cased text contains no casual word scores at least 70 and passes
`validateAnswer`, even with no professional indicator present — the
professionalism component contributes a floor of 20 points. -/
theorem claim_C10_professionalism_floor (t p c : String)
    (hlen : 50 ≤ jsLength (jsTrim t))
    (hcasual : hasCasualWords (jsToLower (jsTrim t)) = false) :
    70 ≤ (validateAnswer t p c).score ∧ (validateAnswer t p c).passed = true := by
  have htot : 70 ≤ answerTotal t := by
    unfold answerTotal
    have h2 := answerProfessionalismScore_bounds (jsToLower (jsTrim t))
    have h4 := answerStructureBonus_bounds (jsToLower (jsTrim t))
    have hl : answerLengthScore (jsLength (jsTrim t)) = 20 := by
      unfold answerLengthScore; rw [if_pos hlen]
    have hg : answerGrammarScore (jsToLower (jsTrim t)) = 30 := by
      unfold answerGrammarScore; rw [hcasual]; rfl
    rw [hl, hg, min_def]; split <;> omega
  rw [validateAnswer_score, validateAnswer_passed, if_neg (by omega), if_neg (by omega)]
  exact ⟨htot, by simp only [decide_eq_true_eq]; omega⟩

/-- Witness for claim C10: a long formal sentence with no casual word and no
professional indicator keyword scores exactly 70 and passes. -/
theorem claim_C10_professionalism_floor_witness :
    70 ≤ (validateAnswer
        "The quarterly report numbers were compiled for review on Monday afternoon."
        "" "").score ∧
    (validateAnswer
        "The quarterly report numbers were compiled for review on Monday afternoon."
        "" "").passed = true :=
  claim_C10_professionalism_floor
    "The quarterly report numbers were compiled for review on Monday afternoon."
    "" "" (by decide) (by decide)

/-- Applying a batch of `issueCredential` calls signed by `a` appends exactly
the corresponding credentials, in call order, to `a`'s sequence. -/
theorem issueMany_apply (a : Addr) (calls : List IssueCall) (s : RegistryState) :
    issueMany a calls s a = s a ++ calls.map toCred := by
  induction calls generalizing s with
  | nil => simp [issueMany]
  | cons c cs ih =>
    have hstep : issueMany a (c :: cs) s
        = issueMany a cs (issueCredential a c.1 c.2.1 c.2.2 s) := rfl
    rw [hstep, ih]
    simp [issueCredential, toCred]

/-- Claim C3: starting from the empty registry, after `N` `issueCredential`
calls signed by `a`, `getCredentialCount a` is `N`; for every index,
`getCredential a i` is exactly the credential of the `i`-th issuance in
insertion order (so earlier entries are unchanged by later issuances), and in
particular `getCredential a N` fails (out of bounds, `none`). -/
theorem claim_C3_ledger_append_only (a : Addr) (calls : List IssueCall) :
    getCredentialCount (issueMany a calls emptyRegistry) a = calls.length ∧
    (∀ i, getCredential (issueMany a calls emptyRegistry) a i = (calls.get? i).map toCred) ∧
    getCredential (issueMany a calls emptyRegistry) a calls.length = none := by
  have h := issueMany_apply a calls emptyRegistry
  refine ⟨?_, fun i => ?_, ?_⟩
  · simp [getCredentialCount, h, emptyRegistry]
  · simp [getCredential, h, emptyRegistry, List.getElem?_map]
  · simp [getCredential, h, emptyRegistry]

/-- Claim C9: a provider whose `eth_chainId` already parses to the target
chain id 1946 makes the reconciler return `true` after that single query —
zero `wallet_switchEthereumChain` and zero `wallet_addEthereumChain` requests
are issued. -/
theorem claim_C9_correct_chain_no_requests (p : Provider) (s : String)
    (hresp : p [] Req.ethChainId = Except.ok s)
    (hid : parseIntHex s = some (Int.ofNat SONEIUM_MINATO.id)) :
    ensureSoneiumNetwork p = (true, [Req.ethChainId]) := by
  unfold ensureSoneiumNetwork
  rw [hresp]
  simp [hid]

/-- Witness for claim C9: the provider answering `"0x79a"` (= 1946). -/
theorem claim_C9_correct_chain_no_requests_witness :
    ensureSoneiumNetwork correctProvider = (true, [Req.ethChainId]) :=
  claim_C9_correct_chain_no_requests correctProvider "0x79a" rfl (by decide)

/-- Claim C6: against a provider that reports a foreign chain id, rejects
every `wallet_switchEthereumChain` with the chain-unrecognized code 4902, and
accepts `wallet_addEthereumChain` (so that the retry the claim describes is
reached), the reconciler issues exactly one add-chain request carrying the
full chain descriptor (`addChainParams`: hex chain id, name, native currency,
RPC URLs, explorer URL), then retries the switch exactly once; when that
retry also fails it returns `false` with no further requests — the request
log is exactly query, switch, add, retry-switch. -/
theorem claim_C6_add_then_single_retry (p : Provider) (s : String)
    (hresp : p [] Req.ethChainId = Except.ok s)
    (hforeign : ¬ parseIntHex s = some (Int.ofNat SONEIUM_MINATO.id))
    (hswitch : ∀ log c, ∃ e, p log (Req.switchChain c) = Except.error e ∧ e.code = some 4902)
    (hadd : ∀ log prm, ∃ v, p log (Req.addChain prm) = Except.ok v) :
    ensureSoneiumNetwork p =
      (false, [Req.ethChainId, Req.switchChain targetChainIdHex,
               Req.addChain addChainParams, Req.switchChain targetChainIdHex]) := by
  obtain ⟨e1, he1, hc1⟩ := hswitch [Req.ethChainId] targetChainIdHex
  obtain ⟨v, hv⟩ := hadd [Req.ethChainId, Req.switchChain targetChainIdHex] addChainParams
  obtain ⟨e2, he2, -⟩ :=
    hswitch ([Req.ethChainId, Req.switchChain targetChainIdHex] ++ [Req.addChain addChainParams])
      targetChainIdHex
  unfold ensureSoneiumNetwork
  rw [hresp]
  dsimp only
  rw [if_neg hforeign, he1]
  dsimp only
  unfold switchCatch
  rw [if_pos hc1, hv]
  dsimp only
  rw [he2]
  rfl

/-- Witness for claim C6: the stubborn provider on chain `"0x1"`. -/
theorem claim_C6_add_then_single_retry_witness :
    ensureSoneiumNetwork stubbornProvider =
      (false, [Req.ethChainId, Req.switchChain targetChainIdHex,
               Req.addChain addChainParams, Req.switchChain targetChainIdHex]) :=
  claim_C6_add_then_single_retry stubbornProvider "0x1" rfl (by decide)
    (fun _ _ => ⟨_, rfl, rfl⟩) (fun _ _ => ⟨_, rfl⟩)

/-- Counterexample to claim C7 as stated: `"USER REJECTED"` contains
`"user rejected"` case-insensitively, yet the classifier sends it to the
unknown catch-all, not to the user-rejected category — the source compares
against the two literal casings only and never lower-cases the message. -/
theorem claim_C7_counterexample :
    jsIncludes (jsToLower "USER REJECTED") "user rejected" = true ∧
    ¬ classifyMintError "USER REJECTED" = MintErrClass.userRejected ∧
    classifyMintError "USER REJECTED" = MintErrClass.unknown := by decide

/-- Claim C7 (amended): every raw error string containing `"User rejected"`
or `"user rejected"` as an exact, case-sensitive substring — the two casings
the source checks — is classified as the user-rejected category (and hence
not as insufficient-funds, network, or the unknown catch-all). -/
theorem claim_C7_exact_casing_rejection (msg : String)
    (h : (jsIncludes msg "User rejected" || jsIncludes msg "user rejected") = true) :
    classifyMintError msg = MintErrClass.userRejected := by
  unfold classifyMintError
  rw [if_pos h]

/-- Witness for amended claim C7 at a concrete rejection message. -/
theorem claim_C7_exact_casing_rejection_witness :
    classifyMintError "Error: user rejected the request" = MintErrClass.userRejected :=
  claim_C7_exact_casing_rejection "Error: user rejected the request" (by decide)

/-- Claim C8, evidence of the code bug: `mintBadge` passes only
`{ hash: txHash }` to `waitForTransactionReceipt` — no explicit timeout
bound — and its error classifier has no timeout branch: the timeout message
the provider library raises falls into the unknown catch-all and is surfaced
verbatim as an ordinary failure, not as a distinct `SubmissionTimeout`
classification. -/
theorem claim_C8_no_timeout_classification (h : String) :
    (mintBadgeReceiptWait h).timeout = none ∧
    classifyMintError
        "Timed out while waiting for transaction with hash 0x123 to be confirmed." =
      MintErrClass.unknown ∧
    mintErrorMessage
        "Timed out while waiting for transaction with hash 0x123 to be confirmed." =
      "Timed out while waiting for transaction with hash 0x123 to be confirmed." :=
  ⟨rfl, by decide, by decide⟩
